import Mathlib

/-!
Shallow embedding of `src/head_pose_estimation.cpp` (gazr head-pose estimator).

Conventions of the embedding:
* pixel landmarks (dlib points) carry integer coordinates (`PointI`);
* `float`/`double` quantities are modelled over `ℚ` (all arithmetic the
  claims touch — quarters, halves, tenths — is exact in the source's
  binary floating point at realistic pixel magnitudes);
* C++ `int` division truncates toward zero (`cppDiv`), and a
  `float`-to-`int` conversion truncates toward zero (`cppTrunc`);
* external collaborators (face detector, landmark regressor, pupil
  locator, `cv::solvePnP`, `cv::Rodrigues`) are parameters of the
  functions that call them, with the interface the code uses;
* fallible lookups are total via `Option`: `none` is the out-of-range
  branch of an unchecked `std::vector` access.
-/

/-- C++ integer division: truncation toward zero. -/
def cppDiv (a b : ℤ) : ℤ := Int.tdiv a b

/-- C++ conversion of an exact rational (modelling a `float`) to `int`:
truncation toward zero. -/
def cppTrunc (q : ℚ) : ℤ := Int.tdiv q.num q.den

/-- Integer pixel point (a dlib landmark, or `cv::Point`). -/
structure PointI where
  x : ℤ
  y : ℤ
deriving DecidableEq, Repr

/-- Rational 2D point (`cv::Point2f`). -/
structure Point2 where
  x : ℚ
  y : ℚ
deriving DecidableEq, Repr

/-- Rational 3D point (`cv::Point3f`), millimeters for the anthropometric
model. -/
structure Point3 where
  x : ℚ
  y : ℚ
  z : ℚ
deriving DecidableEq, Repr

/-- Rational 3D vector (`cv::Vec3d` / a 3x1 `cv::Mat`). -/
structure Vec3Q where
  x : ℚ
  y : ℚ
  z : ℚ
deriving DecidableEq, Repr

/-- An integer rectangle (`cv::Rect`): top-left corner plus size. -/
structure RectI where
  x : ℤ
  y : ℤ
  width : ℤ
  height : ℤ
deriving DecidableEq, Repr

/-- The two-point `cv::Rect_` constructor: top-left is the componentwise
minimum, the size the componentwise difference. -/
def rectOfPoints (p1 p2 : PointI) : RectI :=
  { x := min p1.x p2.x
    y := min p1.y p2.y
    width := max p1.x p2.x - min p1.x p2.x
    height := max p1.y p2.y - min p1.y p2.y }

/-- A 3x3 rational matrix (`cv::Matx33f` / `cv::Matx33d`), by entries. -/
structure Mat3 where
  m00 : ℚ
  m01 : ℚ
  m02 : ℚ
  m10 : ℚ
  m11 : ℚ
  m12 : ℚ
  m20 : ℚ
  m21 : ℚ
  m22 : ℚ
deriving DecidableEq, Repr

/-- The all-zero 3x3 matrix (`cv::Mat::zeros(3,3,CV_32F)`). -/
def mat3Zero : Mat3 := ⟨0, 0, 0, 0, 0, 0, 0, 0, 0⟩

/-- A 4x4 rational matrix: the `head_pose` result type (`cv::Matx44d`). -/
structure Mat4 where
  m00 : ℚ
  m01 : ℚ
  m02 : ℚ
  m03 : ℚ
  m10 : ℚ
  m11 : ℚ
  m12 : ℚ
  m13 : ℚ
  m20 : ℚ
  m21 : ℚ
  m22 : ℚ
  m23 : ℚ
  m30 : ℚ
  m31 : ℚ
  m32 : ℚ
  m33 : ℚ
deriving DecidableEq, Repr

/-- One face's 68-point landmark set (`dlib::full_object_detection`):
`part i` is the i-th detected 2D point. -/
def LandmarkSet : Type := ℕ → PointI

/-- Modelled from the spec: the semantic feature enumeration
(`FACIAL_FEATURE`) is declared in the repository's header, which is not
under `src/`; the spec describes it as "a fixed semantic enumeration
(sellion, eye corners 36-47, mouth corners, nose tip, jaw/chin, etc.)". -/
inductive FACIAL_FEATURE
  | SELLION
  | RIGHT_EYE
  | LEFT_EYE
  | RIGHT_SIDE
  | LEFT_SIDE
  | EYEBROW_RIGHT
  | EYEBROW_LEFT
  | MOUTH_UP
  | MOUTH_DOWN
  | MOUTH_RIGHT
  | MOUTH_LEFT
  | MENTON
  | NOSE
  | MOUTH_CENTER_TOP
  | MOUTH_CENTER_BOTTOM
deriving DecidableEq, Repr

/-- Modelled from the spec: the numeric value of each semantic feature in
the 68-point scheme (declared in the missing header as the enumerators'
values); the claims depend only on the mapping being fixed. -/
def featureIndex : FACIAL_FEATURE → ℕ
  | .SELLION => 27
  | .RIGHT_EYE => 36
  | .LEFT_EYE => 45
  | .RIGHT_SIDE => 0
  | .LEFT_SIDE => 16
  | .EYEBROW_RIGHT => 21
  | .EYEBROW_LEFT => 22
  | .MOUTH_UP => 51
  | .MOUTH_DOWN => 57
  | .MOUTH_RIGHT => 48
  | .MOUTH_LEFT => 54
  | .MENTON => 8
  | .NOSE => 30
  | .MOUTH_CENTER_TOP => 62
  | .MOUTH_CENTER_BOTTOM => 66

/-- Modelled from the spec: the fixed anthropometric 3D reference points
(millimeters), declared as constants in the missing header; the spec calls
them "immutable constant 3D points (millimeters) associated with a
semantic feature name". -/
def P3D_SELLION : Point3 := ⟨0, 0, 0⟩

/-- Modelled from the spec: anthropometric right eye corner (mm). -/
def P3D_RIGHT_EYE : Point3 := ⟨-20, -131/2, -5⟩

/-- Modelled from the spec: anthropometric left eye corner (mm). -/
def P3D_LEFT_EYE : Point3 := ⟨-20, 131/2, -5⟩

/-- Modelled from the spec: anthropometric right ear/side point (mm). -/
def P3D_RIGHT_EAR : Point3 := ⟨-100, -155/2, -6⟩

/-- Modelled from the spec: anthropometric left ear/side point (mm). -/
def P3D_LEFT_EAR : Point3 := ⟨-100, 155/2, -6⟩

/-- Modelled from the spec: anthropometric nose tip (mm). -/
def P3D_NOSE : Point3 := ⟨21, 0, -48⟩

/-- Modelled from the spec: anthropometric stomion (mouth center) point
(mm). -/
def P3D_STOMMION : Point3 := ⟨10, 0, -75⟩

/-- Modelled from the spec: anthropometric menton (chin) point (mm). -/
def P3D_MENTON : Point3 := ⟨0, 0, -133⟩

/-- `toCv`: a dlib landmark as a `cv::Point2f`. -/
def toCvQ (p : PointI) : Point2 := ⟨(p.x : ℚ), (p.y : ℚ)⟩

/-- `EYE_ROI_ENLARGE_FACTOR = 25` (percentage of the detected eye width). -/
def EYE_ROI_ENLARGE_FACTOR : ℚ := 25

/-- In-place margin application on a `cv::Rect`: `x -= margin`,
`y -= margin`, `width += 2*margin`, `height += 2*margin`, each float
result truncated back into the rectangle's `int` field. -/
def applyMargin (r : RectI) (margin : ℚ) : RectI :=
  { x := cppTrunc ((r.x : ℚ) - margin)
    y := cppTrunc ((r.y : ℚ) - margin)
    width := cppTrunc ((r.width : ℚ) + 2 * margin)
    height := cppTrunc ((r.height : ℚ) + 2 * margin) }

/-- The result of `HeadPoseEstimation::eyesROI`: per eye, the 6 contour
points translated into the enlarged rectangle's local frame, and the
enlarged rectangle itself. -/
structure EyesROI where
  leye : List PointI
  leyeRect : RectI
  reye : List PointI
  reyeRect : RectI
deriving DecidableEq, Repr

/-- `HeadPoseEstimation::eyesROI`, lines 77-118 of the source.  Note that
the margin for the right eye is computed from `leye_roi.width` — the LEFT
eye's rectangle, and after that rectangle has already been enlarged — as
in the source (line 104). -/
def eyesROI (face : LandmarkSet) : EyesROI :=
  let leyeBase := rectOfPoints ⟨(face 36).x, min (face 37).y (face 38).y⟩
                               ⟨(face 39).x, max (face 40).y (face 41).y⟩
  let lmargin := EYE_ROI_ENLARGE_FACTOR / 100 * (leyeBase.width : ℚ)
  let leyeRoi := applyMargin leyeBase lmargin
  let leye := [36, 37, 38, 39, 40, 41].map
      (fun i => (⟨(face i).x - leyeRoi.x, (face i).y - leyeRoi.y⟩ : PointI))
  let reyeBase := rectOfPoints ⟨(face 42).x, min (face 43).y (face 44).y⟩
                               ⟨(face 45).x, max (face 46).y (face 47).y⟩
  let rmargin := EYE_ROI_ENLARGE_FACTOR / 100 * (leyeRoi.width : ℚ)
  let reyeRoi := applyMargin reyeBase rmargin
  let reye := [42, 43, 44, 45, 46, 47].map
      (fun i => (⟨(face i).x - reyeRoi.x, (face i).y - reyeRoi.y⟩ : PointI))
  ⟨leye, leyeRoi, reye, reyeRoi⟩

/-- The pupil-normalization step of `HeadPoseEstimation::pupilsRelativePose`
(lines 149-157), for one eye: `center = br() - tl()` (i.e. the width/height
pair), subtract `center * 0.5` from the ROI-local pupil, then divide the x
axis by `width / 2` and the y axis by `height / 2` — both C++ INTEGER
divisions, since the rectangle fields are `int`. -/
def relativePupil (pupil : Point2) (roi : RectI) : Point2 :=
  let center : Point2 := ⟨(roi.width : ℚ), (roi.height : ℚ)⟩
  let rel : Point2 := ⟨pupil.x - center.x * (1/2), pupil.y - center.y * (1/2)⟩
  ⟨rel.x / ((cppDiv roi.width 2 : ℤ) : ℚ),
   rel.y / ((cppDiv roi.height 2 : ℤ) : ℚ)⟩

/-- `HeadPoseEstimation::pupilsRelativePose` (normalization part): the
pupil pixel locations come from the external locator `findEyeCenter` and
are parameters here; the rectangles are the enlarged eye ROIs. -/
def pupilsRelativePose (face : LandmarkSet) (leftPupil rightPupil : Point2) :
    Point2 × Point2 :=
  let r := eyesROI face
  (relativePupil leftPupil r.leyeRect, relativePupil rightPupil r.reyeRect)

/-- The mutable state of a `HeadPoseEstimation` object that the embedded
operations read and write: focal length (set at construction), optical
center (sentinel -1 until the first image), and the per-frame landmark
sets. -/
structure EstState where
  focalLength : ℚ
  opticalCenterX : ℚ
  opticalCenterY : ℚ
  shapes : List LandmarkSet

/-- The constructor `HeadPoseEstimation::HeadPoseEstimation` (lines 64-74):
stores the focal length and initializes the optical center to the -1
sentinel; no faces yet. -/
def initEst (focalLength : ℚ) : EstState :=
  { focalLength := focalLength
    opticalCenterX := -1
    opticalCenterY := -1
    shapes := [] }

/-- The current frame: only its dimensions matter to the embedded state. -/
structure Image where
  cols : ℕ
  rows : ℕ

/-- `HeadPoseEstimation::update` (lines 162-245): if the optical center is
still the -1 sentinel, set it to (cols/2, rows/2) of this image (integer
halving); then replace the landmark sets wholesale with the external
detector/regressor output (a parameter here). -/
def update (img : Image) (detectedShapes : List LandmarkSet) (st : EstState) :
    EstState :=
  let st :=
    if st.opticalCenterX = -1 then
      { st with
        opticalCenterX := ((img.cols / 2 : ℕ) : ℚ)
        opticalCenterY := ((img.rows / 2 : ℕ) : ℚ) }
    else st
  { st with shapes := detectedShapes }

/-- `HeadPoseEstimation::coordsOf` (lines 380-383):
`toCv(shapes[face_idx].part(feature))`.  The `std::vector` indexing has no
bounds check in the source; the total embedding returns `none` exactly on
the out-of-range branch. -/
def coordsOf (st : EstState) (face_idx : ℕ) (f : FACIAL_FEATURE) :
    Option Point2 :=
  (st.shapes.get? face_idx).map (fun shape => toCvQ (shape (featureIndex f)))

/-- The camera projection matrix built at the top of
`HeadPoseEstimation::pose` (lines 250-256): start from zeros, then assign
the five entries. -/
def poseProjection (st : EstState) : Mat3 :=
  let p := mat3Zero
  let p := { p with m00 := st.focalLength }
  let p := { p with m11 := st.focalLength }
  let p := { p with m02 := st.opticalCenterX }
  let p := { p with m12 := st.opticalCenterY }
  { p with m22 := 1 }

/-- The synthesized stomion: `(mouthCenterTop + mouthCenterBottom) * 0.5`
(line 279). -/
def stomionOf (a b : Point2) : Point2 :=
  ⟨(a.x + b.x) * (1/2), (a.y + b.y) * (1/2)⟩

/-- Modelled from the spec: which rigid-pose algorithm the external solver
runs; the source passes `cv::SOLVEPNP_ITERATIVE` (or `cv::ITERATIVE`). -/
inductive PnPMethod
  | iterative
  | epnp
  | p3p
deriving DecidableEq, Repr

/-- The full argument tuple the source hands to `cv::solvePnP`
(lines 290-297): 3D model points, detected 2D points, camera matrix,
distortion coefficients (`noArray()` = `none`, i.e. zero distortion), the
initial rotation and translation vectors, `useExtrinsicGuess`, and the
method flag. -/
structure SolverArgs where
  headPoints : List Point3
  detectedPoints : List Point2
  cameraMatrix : Mat3
  distCoeffs : Option (List ℚ)
  rvecInit : Vec3Q
  tvecInit : Vec3Q
  useExtrinsicGuess : Bool
  method : PnPMethod

/-- Modelled from the spec: the external iterative solver's output — it
"may fail to converge", so its result carries a success flag (the C++
`solvePnP` returns `bool`) beside the refined rotation and translation
vectors. -/
structure SolveResult where
  rvec : Vec3Q
  tvec : Vec3Q
deriving DecidableEq, Repr

/-- The initial-guess translation, `(Mat_<double>(3,1) << 0., 0., 1000.)`
(line 286): 1000 mm in front of the camera. -/
def tvecInit0 : Vec3Q := ⟨0, 0, 1000⟩

/-- The initial-guess rotation vector,
`(Mat_<double>(3,1) << 1.2, 1.2, -1.2)` (line 287); the double literal 1.2
is modelled as the rational 6/5. -/
def rvecInit0 : Vec3Q := ⟨6/5, 6/5, -(6/5)⟩

/-- The argument tuple `HeadPoseEstimation::pose` (lines 250-297) builds
for `cv::solvePnP`, face by face: the 8 fixed anthropometric points, the
8 detected points fetched through `coordsOf` (with the synthesized
stomion), the projection matrix, `noArray()` distortion, and the fixed
extrinsic guess.  Each `coordsOf` call indexes the landmark vector, so the
whole tuple exists exactly when the face index is in range. -/
def solverArgs (st : EstState) (face_idx : ℕ) : Option SolverArgs :=
  (coordsOf st face_idx .SELLION).bind fun pSellion =>
  (coordsOf st face_idx .RIGHT_EYE).bind fun pRightEye =>
  (coordsOf st face_idx .LEFT_EYE).bind fun pLeftEye =>
  (coordsOf st face_idx .RIGHT_SIDE).bind fun pRightSide =>
  (coordsOf st face_idx .LEFT_SIDE).bind fun pLeftSide =>
  (coordsOf st face_idx .MENTON).bind fun pMenton =>
  (coordsOf st face_idx .NOSE).bind fun pNose =>
  (coordsOf st face_idx .MOUTH_CENTER_TOP).bind fun pMct =>
  (coordsOf st face_idx .MOUTH_CENTER_BOTTOM).map fun pMcb =>
  { headPoints := [P3D_SELLION, P3D_RIGHT_EYE, P3D_LEFT_EYE, P3D_RIGHT_EAR,
                   P3D_LEFT_EAR, P3D_MENTON, P3D_NOSE, P3D_STOMMION]
    detectedPoints := [pSellion, pRightEye, pLeftEye, pRightSide, pLeftSide,
                       pMenton, pNose, stomionOf pMct pMcb]
    cameraMatrix := poseProjection st
    distCoeffs := none
    rvecInit := rvecInit0
    tvecInit := tvecInit0
    useExtrinsicGuess := true
    method := .iterative }

/-- Assembly of the 4x4 `head_pose` (lines 299-307): the Rodrigues matrix
fills the rotation block, the translation column is the solver translation
divided by 1000 (mm to m), and the bottom row is (0,0,0,1). -/
def headPoseOf (rotation : Mat3) (tvec : Vec3Q) : Mat4 :=
  { m00 := rotation.m00, m01 := rotation.m01, m02 := rotation.m02
    m03 := tvec.x / 1000
    m10 := rotation.m10, m11 := rotation.m11, m12 := rotation.m12
    m13 := tvec.y / 1000
    m20 := rotation.m20, m21 := rotation.m21, m22 := rotation.m22
    m23 := tvec.z / 1000
    m30 := 0, m31 := 0, m32 := 0, m33 := 1 }

/-- `HeadPoseEstimation::pose` (lines 247-366): build the solver argument
tuple, run the external solver (`solve`, returning a success flag and the
refined vectors), convert the rotation vector with the external
`cv::Rodrigues` (`rodrigues`), and assemble the 4x4 pose.  The source
never reads the solver's success flag: the assembled matrix is returned
unconditionally.  `none` is only the out-of-range landmark lookup. -/
def pose (st : EstState) (solve : SolverArgs → Bool × SolveResult)
    (rodrigues : Vec3Q → Mat3) (face_idx : ℕ) : Option Mat4 :=
  (solverArgs st face_idx).map fun a =>
    headPoseOf (rodrigues (solve a).2.rvec) (solve a).2.tvec

/-- `HeadPoseEstimation::poses` (lines 368-378): one pose per detected
face. -/
def posesOf (st : EstState) (solve : SolverArgs → Bool × SolveResult)
    (rodrigues : Vec3Q → Mat3) : List (Option Mat4) :=
  (List.range st.shapes.length).map (pose st solve rodrigues)

/-- The gaze-screen computation of the debug block (lines 337-344):
`P0` = pose translation, `V` = (pose applied to (1,0,0,1)) minus `P0`
(here taken after the external `cv::normalize`), `N` = (0,0,1),
`t = -(P0.dot(N)) / (V.dot(N))`, point `P = P0 + t * V`.  There is no
guard on `V.dot(N)`: the division is performed unconditionally. -/
def dot3 (a b : Vec3Q) : ℚ := a.x * b.x + a.y * b.y + a.z * b.z

/-- The reference-plane normal `N = (0,0,1)` (line 340). -/
def planeNormal : Vec3Q := ⟨0, 0, 1⟩

/-- The ray parameter `t = -(P0.dot(N)) / (V.dot(N))` (line 342), computed
with no parallelism check. -/
def gazeT (p0 v : Vec3Q) : ℚ := -(dot3 p0 planeNormal) / dot3 v planeNormal

/-- The gaze point on the screen plane, `P = P0 + t * V` (line 344). -/
def gazeScreenPoint (p0 v : Vec3Q) : Vec3Q :=
  ⟨p0.x + gazeT p0 v * v.x, p0.y + gazeT p0 v * v.y, p0.z + gazeT p0 v * v.z⟩

/-- Iterated `update` calls (an arbitrary tail of frames after the first). -/
def updateAll (l : List (Image × List LandmarkSet)) (st : EstState) : EstState :=
  l.foldl (fun s p => update p.1 p.2 s) st

/-- A concrete landmark set for witnesses: point i sits at (i, 2i). -/
def shape0 : LandmarkSet := fun i => ⟨(i : ℤ), 2 * (i : ℤ)⟩

/-- A concrete estimator state after one frame: focal length 500, optical
center (320, 240), one detected face. -/
def st0 : EstState :=
  { focalLength := 500, opticalCenterX := 320, opticalCenterY := 240
    shapes := [shape0] }

/-- An estimator state whose optical center is still the -1 sentinel while
a landmark set is present: the state the uninitialized-camera check of the
spec would have to distinguish. -/
def stBad : EstState :=
  { focalLength := 500, opticalCenterX := -1, opticalCenterY := -1
    shapes := [shape0] }

/-- A concrete external-solver result. -/
def res0 : SolveResult := ⟨⟨1, 2, 3⟩, ⟨40, 50, 60⟩⟩

/-- A mock external solver that reports convergence. -/
def solveOk : SolverArgs → Bool × SolveResult := fun _ => (true, res0)

/-- A mock external solver that reports failure (non-convergence) but, as
`cv::solvePnP` does, still leaves values in the output vectors. -/
def solveFail : SolverArgs → Bool × SolveResult := fun _ => (false, res0)

/-- A concrete stand-in for the external `cv::Rodrigues` conversion. -/
def rod0 : Vec3Q → Mat3 :=
  fun v => ⟨v.x, v.y, v.z, v.y, v.z, v.x, v.z, v.x, v.y⟩

/-- A concrete face for the eye-region theorems: both eyes have base
rectangles of width 8 and height 4; the right eye sits 20 pixels to the
right of the left eye. -/
def exFace : LandmarkSet := fun i =>
  if i = 36 then ⟨0, 2⟩ else if i = 37 then ⟨2, 0⟩ else if i = 38 then ⟨5, 0⟩
  else if i = 39 then ⟨8, 2⟩ else if i = 40 then ⟨5, 4⟩ else if i = 41 then ⟨2, 4⟩
  else if i = 42 then ⟨20, 2⟩ else if i = 43 then ⟨22, 0⟩ else if i = 44 then ⟨25, 0⟩
  else if i = 45 then ⟨28, 2⟩ else if i = 46 then ⟨25, 4⟩ else if i = 47 then ⟨22, 4⟩
  else ⟨0, 0⟩

lemma get?_isSome_iff_lt (l : List LandmarkSet) (n : ℕ) :
    (l.get? n).isSome ↔ n < l.length := by
  induction l generalizing n with
  | nil => simp [List.get?]
  | cons a l ih =>
    cases n with
    | zero => simp [List.get?]
    | succ n => simpa [List.get?, Nat.succ_lt_succ_iff] using ih n

lemma natCast_ne_neg_one (n : ℕ) : ((n : ℕ) : ℚ) ≠ -1 := by
  intro h
  have h0 : (0 : ℚ) ≤ ((n : ℕ) : ℚ) := Nat.cast_nonneg n
  rw [h] at h0
  linarith

lemma update_keeps_oc (img : Image) (s : List LandmarkSet) (st : EstState)
    (h : st.opticalCenterX ≠ -1) :
    (update img s st).opticalCenterX = st.opticalCenterX ∧
    (update img s st).opticalCenterY = st.opticalCenterY := by
  simp [update, h]

lemma updateAll_keeps_oc (l : List (Image × List LandmarkSet)) (st : EstState)
    (h : st.opticalCenterX ≠ -1) :
    (updateAll l st).opticalCenterX = st.opticalCenterX ∧
    (updateAll l st).opticalCenterY = st.opticalCenterY := by
  induction l generalizing st with
  | nil => exact ⟨rfl, rfl⟩
  | cons p l ih =>
    have h1 := update_keeps_oc p.1 p.2 st h
    have h2 : (update p.1 p.2 st).opticalCenterX ≠ -1 := by rw [h1.1]; exact h
    have h3 := ih (update p.1 p.2 st) h2
    have hfold : updateAll (p :: l) st = updateAll l (update p.1 p.2 st) := rfl
    rw [hfold, h3.1, h3.2, h1.1, h1.2]
    exact ⟨rfl, rfl⟩

lemma cppDiv_even_half (w : ℤ) (hwe : Even w) :
    ((cppDiv w 2 : ℤ) : ℚ) = (w : ℚ) / 2 := by
  obtain ⟨k, hk⟩ := hwe
  subst hk
  have hc : cppDiv (k + k) 2 = k := by
    unfold cppDiv
    rw [show k + k = 2 * k by ring]
    exact Int.mul_tdiv_cancel_left k (by decide)
  rw [hc]
  push_cast
  ring

/-- Claim C7: the 3x3 camera projection matrix built for the pose solve
has the focal length at entries (0,0) and (1,1), the optical center x and
y at entries (0,2) and (1,2), 1 at entry (2,2), and zero at every other
entry. -/
theorem projection_matrix_layout (f cx cy : ℚ) (shapes : List LandmarkSet) :
    (poseProjection ⟨f, cx, cy, shapes⟩).m00 = f ∧
    (poseProjection ⟨f, cx, cy, shapes⟩).m11 = f ∧
    (poseProjection ⟨f, cx, cy, shapes⟩).m02 = cx ∧
    (poseProjection ⟨f, cx, cy, shapes⟩).m12 = cy ∧
    (poseProjection ⟨f, cx, cy, shapes⟩).m22 = 1 ∧
    (poseProjection ⟨f, cx, cy, shapes⟩).m01 = 0 ∧
    (poseProjection ⟨f, cx, cy, shapes⟩).m10 = 0 ∧
    (poseProjection ⟨f, cx, cy, shapes⟩).m20 = 0 ∧
    (poseProjection ⟨f, cx, cy, shapes⟩).m21 = 0 :=
  ⟨rfl, rfl, rfl, rfl, rfl, rfl, rfl, rfl, rfl⟩

/-- Claim C4 (code bug): at a face whose two eyes both have base
rectangles of width 8, the left eye's enlarged rectangle has width
12 = 1.5 x 8 as claimed, but the right eye's margin is computed from the
LEFT eye's already-enlarged width (source line 104 reads
`leye_roi.width`), giving an enlarged right width of 8 + 2*(0.25*12) = 14
instead of the claimed 1.5 x 8 = 12. -/
theorem eyesROI_right_margin_uses_left_width :
    (rectOfPoints ⟨(exFace 36).x, min (exFace 37).y (exFace 38).y⟩
       ⟨(exFace 39).x, max (exFace 40).y (exFace 41).y⟩).width = 8 ∧
    (rectOfPoints ⟨(exFace 42).x, min (exFace 43).y (exFace 44).y⟩
       ⟨(exFace 45).x, max (exFace 46).y (exFace 47).y⟩).width = 8 ∧
    (eyesROI exFace).leyeRect.width = 12 ∧
    (eyesROI exFace).reyeRect.width = 14 ∧
    ¬ ((14 : ℚ) = 3 / 2 * 8) := by
  refine ⟨by norm_num [rectOfPoints, exFace], by norm_num [rectOfPoints, exFace], ?_, ?_, by norm_num⟩
  · simp only [eyesROI, rectOfPoints, applyMargin, EYE_ROI_ENLARGE_FACTOR, exFace]
    norm_num
    rfl
  · simp only [eyesROI, rectOfPoints, applyMargin, EYE_ROI_ENLARGE_FACTOR, exFace]
    norm_num
    rw [show cppTrunc (12 : ℚ) = 12 from rfl]
    norm_num
    rfl

/-- Claim C8 (code bug): with gaze origin (0,0,5) and a direction (1,0,0)
strictly parallel to the reference plane z = 0, the dot product with the
plane normal is 0, yet the code performs the division
`t = -(P0.dot(N)) / (V.dot(N))` unconditionally and produces a "point"
(in this exact-field model the zero-denominator division returns 0 and
the point degenerates to the origin; in the source's IEEE doubles the
same expression yields an infinite/NaN point); no parallel-ray failure is
reported anywhere. -/
theorem gaze_parallel_ray_divides_through :
    dot3 ⟨1, 0, 0⟩ planeNormal = 0 ∧
    gazeT ⟨0, 0, 5⟩ ⟨1, 0, 0⟩ = 0 ∧
    gazeScreenPoint ⟨0, 0, 5⟩ ⟨1, 0, 0⟩ = ⟨0, 0, 5⟩ := by
  refine ⟨by norm_num [dot3, planeNormal], by norm_num [gazeT, dot3, planeNormal], ?_⟩
  norm_num [gazeScreenPoint, gazeT, dot3, planeNormal]

/-- Claim C5 (counterexample): for an eye rectangle of width 5 and height
4, a pupil at the middle of the rectangle's right edge (local coordinates
(5, 2)) normalizes to (5/4, 0), not to the claimed (1, 0): the divisor is
the C++ integer division `width / 2 = 2`, not half the width 5/2. -/
theorem relativePupil_odd_width_not_unit :
    relativePupil ⟨5, 2⟩ ⟨0, 0, 5, 4⟩ = ⟨5/4, 0⟩ ∧ ¬ ((5 : ℚ)/4 = 1) := by
  have hd5 : cppDiv 5 2 = 2 := rfl
  have hd4 : cppDiv 4 2 = 2 := rfl
  refine ⟨?_, by norm_num⟩
  norm_num [relativePupil, hd5, hd4]

/-- Claim C5 (amended): the pupil normalization subtracts the rectangle's
geometric center from the ROI-local pupil and divides each axis by the
C++ INTEGER half of the corresponding dimension (`width / 2`,
`height / 2` with `int` division); when both dimensions are even and
positive this equals half the dimension, so a centered pupil normalizes
to (0, 0), a pupil at the middle of the right edge to (1, 0), and in
general the result is `(p - dim/2) / (dim/2)` per axis. -/
theorem relativePupil_integer_half_normalization (x y w h : ℤ) (p : Point2)
    (hw : 0 < w) (hh : 0 < h) (hwe : Even w) (hhe : Even h) :
    relativePupil ⟨(w : ℚ) / 2, (h : ℚ) / 2⟩ ⟨x, y, w, h⟩ = ⟨0, 0⟩ ∧
    relativePupil ⟨(w : ℚ), (h : ℚ) / 2⟩ ⟨x, y, w, h⟩ = ⟨1, 0⟩ ∧
    relativePupil p ⟨x, y, w, h⟩ =
      ⟨(p.x - (w : ℚ) / 2) / ((w : ℚ) / 2),
       (p.y - (h : ℚ) / 2) / ((h : ℚ) / 2)⟩ := by
  have hwq := cppDiv_even_half w hwe
  have hhq := cppDiv_even_half h hhe
  have hw0 : (w : ℚ) ≠ 0 := Int.cast_ne_zero.mpr hw.ne'
  have hh0 : (h : ℚ) ≠ 0 := Int.cast_ne_zero.mpr hh.ne'
  have hw2 : (w : ℚ) / 2 ≠ 0 := div_ne_zero hw0 two_ne_zero
  have hh2 : (h : ℚ) / 2 ≠ 0 := div_ne_zero hh0 two_ne_zero
  unfold relativePupil
  simp only [hwq, hhq, Point2.mk.injEq]
  refine ⟨⟨?_, ?_⟩, ⟨?_, ?_⟩, ⟨?_, ?_⟩⟩
  · rw [show (w : ℚ) / 2 - (w : ℚ) * (1 / 2) = 0 by ring]
    exact zero_div _
  · rw [show (h : ℚ) / 2 - (h : ℚ) * (1 / 2) = 0 by ring]
    exact zero_div _
  · rw [show (w : ℚ) - (w : ℚ) * (1 / 2) = (w : ℚ) / 2 by ring]
    exact div_self hw2
  · rw [show (h : ℚ) / 2 - (h : ℚ) * (1 / 2) = 0 by ring]
    exact zero_div _
  · rw [show p.x - (w : ℚ) * (1 / 2) = p.x - (w : ℚ) / 2 by ring]
  · rw [show p.y - (h : ℚ) * (1 / 2) = p.y - (h : ℚ) / 2 by ring]

/-- Witness for `relativePupil_integer_half_normalization` at the concrete
4 x 4 rectangle and the pupil (3, 7). -/
theorem relativePupil_integer_half_normalization_witness :
    relativePupil ⟨((4 : ℤ) : ℚ) / 2, ((4 : ℤ) : ℚ) / 2⟩ ⟨0, 0, 4, 4⟩ = ⟨0, 0⟩ ∧
    relativePupil ⟨((4 : ℤ) : ℚ), ((4 : ℤ) : ℚ) / 2⟩ ⟨0, 0, 4, 4⟩ = ⟨1, 0⟩ ∧
    relativePupil ⟨3, 7⟩ ⟨0, 0, 4, 4⟩ =
      ⟨((3 : ℚ) - ((4 : ℤ) : ℚ) / 2) / (((4 : ℤ) : ℚ) / 2),
       ((7 : ℚ) - ((4 : ℤ) : ℚ) / 2) / (((4 : ℤ) : ℚ) / 2)⟩ :=
  relativePupil_integer_half_normalization 0 0 4 4 ⟨3, 7⟩
    (by norm_num) (by norm_num) ⟨2, by norm_num⟩ ⟨2, by norm_num⟩

/-- Claim C6: the optical center is set exactly once, by the first
`update` call, to (cols/2, rows/2) of that first image; any sequence of
subsequent `update` calls, with images of any dimensions, leaves it
unchanged. -/
theorem optical_center_initialized_once (f : ℚ) (img1 : Image)
    (s1 : List LandmarkSet) (rest : List (Image × List LandmarkSet)) :
    (update img1 s1 (initEst f)).opticalCenterX = ((img1.cols / 2 : ℕ) : ℚ) ∧
    (update img1 s1 (initEst f)).opticalCenterY = ((img1.rows / 2 : ℕ) : ℚ) ∧
    (updateAll rest (update img1 s1 (initEst f))).opticalCenterX
      = ((img1.cols / 2 : ℕ) : ℚ) ∧
    (updateAll rest (update img1 s1 (initEst f))).opticalCenterY
      = ((img1.rows / 2 : ℕ) : ℚ) := by
  have h1 : (update img1 s1 (initEst f)).opticalCenterX
      = ((img1.cols / 2 : ℕ) : ℚ) := by
    simp [update, initEst]
  have h2 : (update img1 s1 (initEst f)).opticalCenterY
      = ((img1.rows / 2 : ℕ) : ℚ) := by
    simp [update, initEst]
  have hne : (update img1 s1 (initEst f)).opticalCenterX ≠ -1 := by
    rw [h1]
    exact natCast_ne_neg_one _
  have h3 := updateAll_keeps_oc rest _ hne
  exact ⟨h1, h2, h3.1.trans h1, h3.2.trans h2⟩

/-- Claim C10: `coordsOf` (and hence the solver-argument construction and
`pose`) indexes the stored landmark-set list at the face index with no
bounds check; in the total embedding the lookup yields a value exactly
when the index is below the number of faces of the most recent `update`,
and for any larger index the out-of-range branch (`none`) is reached. -/
theorem coordsOf_and_pose_in_range (st : EstState) (idx : ℕ)
    (f : FACIAL_FEATURE) (solve : SolverArgs → Bool × SolveResult)
    (rodrigues : Vec3Q → Mat3) :
    ((coordsOf st idx f).isSome ↔ idx < st.shapes.length) ∧
    ((pose st solve rodrigues idx).isSome ↔ idx < st.shapes.length) := by
  have hlen := get?_isSome_iff_lt st.shapes idx
  cases hg : st.shapes.get? idx with
  | none =>
      have hnlt : ¬ idx < st.shapes.length := by
        rw [← hlen, hg]
        simp
      constructor
      · simp only [coordsOf, hg, Option.map_none', Option.isSome_none]
        simp [hnlt]
      · simp only [pose, solverArgs, coordsOf, hg, Option.map_none',
          Option.none_bind, Option.isSome_none]
        simp [hnlt]
  | some s =>
      have hlt : idx < st.shapes.length := by
        rw [← hlen, hg]
        simp
      constructor
      · simp only [coordsOf, hg, Option.map_some', Option.isSome_some]
        simp [hlt]
      · simp only [pose, solverArgs, coordsOf, hg, Option.map_some',
          Option.some_bind, Option.isSome_some]
        simp [hlt]

/-- Claim C1: for every face index whose landmark set is present, the
solver-argument tuple `pose` hands to the external iterative solver is
exactly: the fixed 8-point anthropometric correspondence set (sellion,
right eye corner, left eye corner, right side, left side, menton, nose
tip, stomion) paired with the detected points (the stomion synthesized as
the midpoint of the mouth-center-top and mouth-center-bottom landmarks),
the camera projection matrix, zero distortion (`noArray()`), the fixed
non-trivial extrinsic guess translation (0, 0, 1000) mm and rotation
vector (1.2, 1.2, -1.2) with `useExtrinsicGuess = true`, refined in place
by the iterative method. -/
theorem pose_invokes_solver_with_fixed_args (st : EstState) (idx : ℕ)
    (shape : LandmarkSet) (pa pb : Point2)
    (h : st.shapes.get? idx = some shape) :
    solverArgs st idx = some
      { headPoints := [P3D_SELLION, P3D_RIGHT_EYE, P3D_LEFT_EYE,
                       P3D_RIGHT_EAR, P3D_LEFT_EAR, P3D_MENTON, P3D_NOSE,
                       P3D_STOMMION]
        detectedPoints :=
          [toCvQ (shape (featureIndex .SELLION)),
           toCvQ (shape (featureIndex .RIGHT_EYE)),
           toCvQ (shape (featureIndex .LEFT_EYE)),
           toCvQ (shape (featureIndex .RIGHT_SIDE)),
           toCvQ (shape (featureIndex .LEFT_SIDE)),
           toCvQ (shape (featureIndex .MENTON)),
           toCvQ (shape (featureIndex .NOSE)),
           stomionOf (toCvQ (shape (featureIndex .MOUTH_CENTER_TOP)))
                     (toCvQ (shape (featureIndex .MOUTH_CENTER_BOTTOM)))]
        cameraMatrix := poseProjection st
        distCoeffs := none
        rvecInit := rvecInit0
        tvecInit := tvecInit0
        useExtrinsicGuess := true
        method := PnPMethod.iterative } ∧
    rvecInit0 = ⟨6/5, 6/5, -(6/5)⟩ ∧
    tvecInit0 = ⟨0, 0, 1000⟩ ∧
    stomionOf pa pb = ⟨(pa.x + pb.x) / 2, (pa.y + pb.y) / 2⟩ := by
  refine ⟨?_, rfl, rfl, ?_⟩
  · simp only [solverArgs, coordsOf, h, Option.map_some', Option.some_bind]
  · simp only [stomionOf, Point2.mk.injEq]
    constructor <;> ring

/-- Witness for `pose_invokes_solver_with_fixed_args` at the one-face
state `st0`. -/
theorem pose_invokes_solver_with_fixed_args_witness :
    solverArgs st0 0 = some
      { headPoints := [P3D_SELLION, P3D_RIGHT_EYE, P3D_LEFT_EYE,
                       P3D_RIGHT_EAR, P3D_LEFT_EAR, P3D_MENTON, P3D_NOSE,
                       P3D_STOMMION]
        detectedPoints :=
          [toCvQ (shape0 (featureIndex .SELLION)),
           toCvQ (shape0 (featureIndex .RIGHT_EYE)),
           toCvQ (shape0 (featureIndex .LEFT_EYE)),
           toCvQ (shape0 (featureIndex .RIGHT_SIDE)),
           toCvQ (shape0 (featureIndex .LEFT_SIDE)),
           toCvQ (shape0 (featureIndex .MENTON)),
           toCvQ (shape0 (featureIndex .NOSE)),
           stomionOf (toCvQ (shape0 (featureIndex .MOUTH_CENTER_TOP)))
                     (toCvQ (shape0 (featureIndex .MOUTH_CENTER_BOTTOM)))]
        cameraMatrix := poseProjection st0
        distCoeffs := none
        rvecInit := rvecInit0
        tvecInit := tvecInit0
        useExtrinsicGuess := true
        method := PnPMethod.iterative } ∧
    rvecInit0 = ⟨6/5, 6/5, -(6/5)⟩ ∧
    tvecInit0 = ⟨0, 0, 1000⟩ ∧
    stomionOf ⟨1, 2⟩ ⟨3, 4⟩ = ⟨((1 : ℚ) + 3) / 2, ((2 : ℚ) + 4) / 2⟩ :=
  pose_invokes_solver_with_fixed_args st0 0 shape0 ⟨1, 2⟩ ⟨3, 4⟩ rfl

/-- Claim C2: for every solver output, the 4x4 pose returned by `pose` has
its 3x3 rotation block equal to the (external, exponential-map) Rodrigues
conversion of the solver's rotation vector, its translation column equal
to the solver translation divided by 1000 (millimeters to meters), and
its bottom row equal to (0, 0, 0, 1). -/
theorem pose_assembles_rodrigues_and_mm_to_m (st : EstState) (idx : ℕ)
    (solve : SolverArgs → Bool × SolveResult) (rodrigues : Vec3Q → Mat3)
    (a : SolverArgs) (h : solverArgs st idx = some a) :
    ∃ M, pose st solve rodrigues idx = some M ∧
      M.m00 = (rodrigues (solve a).2.rvec).m00 ∧
      M.m01 = (rodrigues (solve a).2.rvec).m01 ∧
      M.m02 = (rodrigues (solve a).2.rvec).m02 ∧
      M.m10 = (rodrigues (solve a).2.rvec).m10 ∧
      M.m11 = (rodrigues (solve a).2.rvec).m11 ∧
      M.m12 = (rodrigues (solve a).2.rvec).m12 ∧
      M.m20 = (rodrigues (solve a).2.rvec).m20 ∧
      M.m21 = (rodrigues (solve a).2.rvec).m21 ∧
      M.m22 = (rodrigues (solve a).2.rvec).m22 ∧
      M.m03 = (solve a).2.tvec.x / 1000 ∧
      M.m13 = (solve a).2.tvec.y / 1000 ∧
      M.m23 = (solve a).2.tvec.z / 1000 ∧
      M.m30 = 0 ∧ M.m31 = 0 ∧ M.m32 = 0 ∧ M.m33 = 1 := by
  refine ⟨headPoseOf (rodrigues (solve a).2.rvec) (solve a).2.tvec, ?_,
    rfl, rfl, rfl, rfl, rfl, rfl, rfl, rfl, rfl, rfl, rfl, rfl, rfl, rfl,
    rfl, rfl⟩
  simp only [pose, h, Option.map_some']

/-- Witness for `pose_assembles_rodrigues_and_mm_to_m` at the one-face
state `st0` with the mock solver `solveOk` and mock Rodrigues `rod0`. -/
theorem pose_assembles_rodrigues_and_mm_to_m_witness :
    ∃ M, pose st0 solveOk rod0 0 = some M ∧
      M.m00 = (rod0 res0.rvec).m00 ∧
      M.m01 = (rod0 res0.rvec).m01 ∧
      M.m02 = (rod0 res0.rvec).m02 ∧
      M.m10 = (rod0 res0.rvec).m10 ∧
      M.m11 = (rod0 res0.rvec).m11 ∧
      M.m12 = (rod0 res0.rvec).m12 ∧
      M.m20 = (rod0 res0.rvec).m20 ∧
      M.m21 = (rod0 res0.rvec).m21 ∧
      M.m22 = (rod0 res0.rvec).m22 ∧
      M.m03 = res0.tvec.x / 1000 ∧
      M.m13 = res0.tvec.y / 1000 ∧
      M.m23 = res0.tvec.z / 1000 ∧
      M.m30 = 0 ∧ M.m31 = 0 ∧ M.m32 = 0 ∧ M.m33 = 1 := by
  have hsome : (solverArgs st0 0).isSome := by
    simp only [solverArgs, coordsOf, show st0.shapes.get? 0 = some shape0 from rfl,
      Option.map_some', Option.some_bind, Option.isSome_some]
  exact pose_assembles_rodrigues_and_mm_to_m st0 0 solveOk rod0
    ((solverArgs st0 0).get hsome) (Option.some_get hsome).symm

/-- Claim C3 (code bug): the source never reads the solver's success
flag — the pose assembled from whatever the solver left in the output
vectors is returned no matter whether the solver reported convergence,
and the `head_pose` result type has no failure channel at all: with a
solver that reports failure, `pose` still returns `some` assembled pose,
identical to the converged case. -/
theorem pose_ignores_solver_failure :
    (∀ (st : EstState) (idx : ℕ) (rodrigues : Vec3Q → Mat3)
       (res : SolverArgs → SolveResult),
       pose st (fun a => (false, res a)) rodrigues idx
         = pose st (fun a => (true, res a)) rodrigues idx) ∧
    (pose st0 solveFail rod0 0).isSome := by
  constructor
  · intro st idx rodrigues res
    rfl
  · simp only [pose, solverArgs, coordsOf,
      show st0.shapes.get? 0 = some shape0 from rfl,
      Option.map_some', Option.some_bind, Option.isSome_some]

/-- Claim C9 (code bug): `pose` performs no uninitialized-camera check.
On a freshly constructed estimator the projection matrix is built from
the (-1, -1) sentinel optical center; and on a state whose landmarks are
present while the optical center is still the sentinel, the solve
proceeds with the sentinel camera matrix and returns an assembled pose —
no distinct uninitialized-camera failure exists anywhere in `pose`. -/
theorem pose_uses_sentinel_optical_center :
    (poseProjection (initEst 500)).m02 = -1 ∧
    (poseProjection (initEst 500)).m12 = -1 ∧
    (solverArgs stBad 0).map (fun a => a.cameraMatrix)
      = some (poseProjection stBad) ∧
    (poseProjection stBad).m02 = -1 ∧
    (pose stBad solveOk rod0 0).isSome := by
  refine ⟨rfl, rfl, ?_, rfl, ?_⟩
  · simp only [solverArgs, coordsOf,
      show stBad.shapes.get? 0 = some shape0 from rfl,
      Option.map_some', Option.some_bind]
  · simp only [pose, solverArgs, coordsOf,
      show stBad.shapes.get? 0 = some shape0 from rfl,
      Option.map_some', Option.some_bind, Option.isSome_some]
